import Mathlib

/-!
Verification development for the rover / mothership mission system.

The definitions below are a shallow embedding of the Python sources:
  * `ML`     embeds `versaofinal/missionlink.py` (the MissionLink byte codec);
  * `RoverM` embeds `Miguel/v3.0_TCP_UDP/roverINFO.py` and the movement
    helpers of `Miguel/v2.0/utils.py`;
  * `NM`     embeds the MissionLink dispatcher of `versaofinal/navemae.py`.

Machine integers are modelled as `Nat` with explicit `% 2^w` at the points
where the Python code packs them into fixed-size fields; byte strings are
`List Nat` with every element below 256 by construction.  Python floats are
modelled with exact rational / real-valued semantics: coordinates are `ℚ`
and the single square root produced by the movement helper is kept
symbolically (see `QS`).  Fallible code (struct errors, `ValueError`,
`math domain error`, `ZeroDivisionError`) is modelled with `Option` /
`Except`.
-/

namespace ML

/-- Error cases of `parse_message` / `decode_header` (the `ValueError`
branches of `missionlink.py`). -/
inductive MLError where
  | tooShort
  | payloadLenMismatch
  | checksumMismatch
deriving DecidableEq

/-- The decoded 20-byte MissionLink header (`missionlink.MLHeader`). -/
structure MLHeader where
  version : ℕ
  msg_type : ℕ
  flags : ℕ
  hdr_len : ℕ
  seq : ℕ
  ack : ℕ
  stream_id : ℕ
  payload_len : ℕ
  checksum : ℕ
deriving DecidableEq

def HEADER_SIZE : ℕ := 20

def TYPE_READY : ℕ := 0
def TYPE_MISSION : ℕ := 1
def TYPE_PROGRESS : ℕ := 2
def TYPE_DONE : ℕ := 3
def TYPE_ACK : ℕ := 4
def TYPE_NOMISSION : ℕ := 5
def TYPE_REQUESTMISSION : ℕ := 6

def FLAG_NEEDS_ACK : ℕ := 1
def FLAG_ACK_ONLY : ℕ := 2
def FLAG_RETX : ℕ := 4

/-- `struct.pack("!BBBBIIHHI", ...)`: big-endian serialization of the header.
`struct.pack` raises on out-of-range values; here fields are reduced
`% 2^w`, and the round-trip theorems restrict to in-range fields. -/
def encode_header (h : MLHeader) : List ℕ :=
  [h.version % 256, h.msg_type % 256, h.flags % 256, h.hdr_len % 256,
   h.seq / 16777216 % 256, h.seq / 65536 % 256, h.seq / 256 % 256, h.seq % 256,
   h.ack / 16777216 % 256, h.ack / 65536 % 256, h.ack / 256 % 256, h.ack % 256,
   h.stream_id / 256 % 256, h.stream_id % 256,
   h.payload_len / 256 % 256, h.payload_len % 256,
   h.checksum / 16777216 % 256, h.checksum / 65536 % 256,
   h.checksum / 256 % 256, h.checksum % 256]

/-- Byte `i` of a byte string (callers establish the length bound first,
exactly as `missionlink.py` checks lengths before `struct.unpack`). -/
def byteAt (l : List ℕ) (i : ℕ) : ℕ := l.getD i 0

/-- Big-endian `uint16` field starting at byte `i`. -/
def rd16 (l : List ℕ) (i : ℕ) : ℕ := byteAt l i * 256 + byteAt l (i + 1)

/-- Big-endian `uint32` field starting at byte `i`. -/
def rd32 (l : List ℕ) (i : ℕ) : ℕ :=
  ((byteAt l i * 256 + byteAt l (i + 1)) * 256 + byteAt l (i + 2)) * 256
    + byteAt l (i + 3)

/-- The `struct.unpack("!BBBBIIHHI", data[:HEADER_SIZE])` step of
`decode_header`, after its length guard has passed. -/
def readHeader (data : List ℕ) : MLHeader :=
  { version := byteAt data 0
    msg_type := byteAt data 1
    flags := byteAt data 2
    hdr_len := byteAt data 3
    seq := rd32 data 4
    ack := rd32 data 8
    stream_id := rd16 data 12
    payload_len := rd16 data 14
    checksum := rd32 data 16 }

/-- `missionlink.decode_header`: `ValueError` when fewer than
`HEADER_SIZE` bytes are given. -/
def decode_header (data : List ℕ) : Option MLHeader :=
  if data.length < HEADER_SIZE then none else some (readHeader data)

/-- One bit step of the reflected CRC-32 used by `zlib.crc32`
(polynomial 0xEDB88320). -/
def crc32Step (c : ℕ) : ℕ :=
  if c % 2 = 1 then (c / 2) ^^^ 0xEDB88320 else c / 2

/-- Fold one input byte into the running CRC. -/
def crc32Byte (c b : ℕ) : ℕ := crc32Step^[8] (c ^^^ (b % 256))

def crc32Loop : ℕ → List ℕ → ℕ
  | c, [] => c
  | c, b :: t => crc32Loop (crc32Byte c b) t

/-- `zlib.crc32(data)`: init and final xor with 0xFFFFFFFF. -/
def crc32 (data : List ℕ) : ℕ := crc32Loop 0xFFFFFFFF data ^^^ 0xFFFFFFFF

/-- `missionlink.compute_checksum`: 0 for an empty payload, otherwise
`zlib.crc32(payload) & 0xFFFFFFFF` (the mask is `% 2^32`). -/
def compute_checksum (payload : List ℕ) : ℕ :=
  if payload = [] then 0 else crc32 payload % 4294967296

/-- `missionlink.build_message`: header (with computed `payload_len` and
`checksum`) followed by the payload bytes. -/
def build_message (msg_type seq ack stream_id : ℕ) (payload : List ℕ)
    (flags : ℕ) (version : ℕ := 1) : List ℕ :=
  encode_header
    { version := version
      msg_type := msg_type
      flags := flags
      hdr_len := HEADER_SIZE
      seq := seq
      ack := ack
      stream_id := stream_id
      payload_len := payload.length
      checksum := compute_checksum payload } ++ payload

/-- `missionlink.parse_message`: length guard, header decode, payload
slice `data[HEADER_SIZE : HEADER_SIZE + payload_len]`, length check and
checksum check, in the order of the source. -/
def parse_message (data : List ℕ) : Except MLError (MLHeader × List ℕ) :=
  if data.length < HEADER_SIZE then .error .tooShort
  else
    let header := readHeader (data.take HEADER_SIZE)
    let payload := (data.drop HEADER_SIZE).take header.payload_len
    if payload.length ≠ header.payload_len then .error .payloadLenMismatch
    else if header.checksum ≠ compute_checksum payload then
      .error .checksumMismatch
    else .ok (header, payload)

end ML

namespace RoverM

/-- A real value of the form `b + c * sqrt r` (with `0 ≤ r`).  The movement
helper of `utils.py` divides the step by `math.sqrt(...)`; the square root
is kept symbolically so the embedding stays exact and computable. -/
structure QS where
  b : ℚ
  c : ℚ
  r : ℚ
deriving DecidableEq

/-- Embeds an exact rational coordinate. -/
def QS.ofQ (q : ℚ) : QS := ⟨q, 0, 0⟩

/-- A heading value.  `utils.calcularDirecao` computes
`degrees(atan2(dy, dx))` normalized to `[0, 360)`; the transcendental
result is recorded by its arguments (`atan2deg dy dx`), which is all the
claims ever observe. -/
inductive Dir where
  | q (v : ℚ)
  | atan2deg (dy dx : QS)
deriving DecidableEq

/-- `utils.moverPasso` (Miguel/v2.0/utils.py; `mover` in Miguel/utils.py is
the same formula).  The radicand is `dx^2 + dy^2 + dz*999*2` exactly as in
the source; a negative radicand makes `math.sqrt` raise a domain error,
modelled as `none`.  `distancia == 0` is equivalent to radicand `= 0`, and
`passo >= distancia` to `0 ≤ passo ∧ radicand ≤ passo^2`.  In the interior
branch the new coordinate `x + dx * passo / sqrt rad` is the `QS` value
`⟨x, dx * passo / rad, rad⟩`. -/
def moverPasso (x y z : ℚ) (destino : ℚ × ℚ × ℚ) (velocidade tempo ang : ℚ) :
    Option (QS × QS × QS × Dir) :=
  let xD := destino.1
  let yD := destino.2.1
  let zD := destino.2.2
  let dx := xD - x
  let dy := yD - y
  let dz := zD - z
  let rad := dx ^ 2 + dy ^ 2 + dz * 999 * 2
  if rad < 0 then none
  else if rad = 0 then some (QS.ofQ x, QS.ofQ y, QS.ofQ z, Dir.q ang)
  else
    let passo := velocidade * tempo
    if 0 ≤ passo ∧ rad ≤ passo ^ 2 then
      some (QS.ofQ xD, QS.ofQ yD, QS.ofQ zD, Dir.q ang)
    else
      let xN : QS := ⟨x, dx * passo / rad, rad⟩
      let yN : QS := ⟨y, dy * passo / rad, rad⟩
      let zN : QS := ⟨z, dz * passo / rad, rad⟩
      some (xN, yN, zN,
        Dir.atan2deg ⟨0, dy * passo / rad, rad⟩ ⟨0, dx * passo / rad, rad⟩)

/-- `utils.estaNoDestino`: componentwise equality with the destination. -/
def estaNoDestino (x y z : ℚ) (destino : ℚ × ℚ × ℚ) : Bool :=
  if x ≠ destino.1 then false
  else if y ≠ destino.2.1 then false
  else if z ≠ destino.2.2 then false
  else true

/-- The rover state of `roverINFO.Rover` (Miguel/v3.0_TCP_UDP). -/
structure Rover where
  id : ℕ
  tick : ℚ := 1
  pos_x : ℚ := 0
  pos_y : ℚ := 0
  pos_z : ℚ := 0
  destino : ℚ × ℚ × ℚ := (0, 0, 0)
  velocidade : ℚ := 0
  direcao : ℚ := 0
  bateria : ℚ := 100
  state : ℕ := 0
  proc_use : ℚ := 0
  storage : ℚ := 0
  sensores : ℤ := 0
  freq : ℚ := 2/5
  dirty : Bool := false
  missao : ℕ := 0
  progresso : ℤ := 0
  duracao : ℚ := 60
  working : ℕ := 0
deriving DecidableEq

/-- The rover state after one simulation step: positions may carry the
symbolic square root produced by `moverPasso`, and the heading may be a
recorded `atan2` value. -/
structure RoverS where
  id : ℕ
  tick : ℚ
  pos_x : QS
  pos_y : QS
  pos_z : QS
  destino : ℚ × ℚ × ℚ
  velocidade : ℚ
  direcao : Dir
  bateria : ℚ
  state : ℕ
  proc_use : ℚ
  storage : ℚ
  sensores : ℤ
  freq : ℚ
  dirty : Bool
  missao : ℕ
  progresso : ℤ
  duracao : ℚ
  working : ℕ
deriving DecidableEq

def Rover.toS (r : Rover) : RoverS :=
  { id := r.id, tick := r.tick
    pos_x := QS.ofQ r.pos_x, pos_y := QS.ofQ r.pos_y, pos_z := QS.ofQ r.pos_z
    destino := r.destino, velocidade := r.velocidade
    direcao := Dir.q r.direcao, bateria := r.bateria, state := r.state
    proc_use := r.proc_use, storage := r.storage, sensores := r.sensores
    freq := r.freq, dirty := r.dirty, missao := r.missao
    progresso := r.progresso, duracao := r.duracao, working := r.working }

/-- One draw of every random quantity consumed by a single `iterar` step:
`random.choice([-1, 0, 1])` for the velocity jitter and the two
`random.randint(1, 100)` draws of `ajustarEstatisticas`. -/
structure Rng where
  variacaoVel : ℤ
  procUse : ℕ
  statR : ℕ
deriving DecidableEq

/-- Python `int(q)` truncates toward zero. -/
def pyInt (q : ℚ) : ℤ := if 0 ≤ q then ⌊q⌋ else ⌈q⌉

/-- `Rover.moverRover` plus the inlined `ajustarEstatisticas("movimento")`:
move one step, jitter the velocity (clamped at 0), randomize the telemetry
metrics and drain the battery by 0.5. -/
def moverRover (rng : Rng) (r : Rover) : Option RoverS :=
  (moverPasso r.pos_x r.pos_y r.pos_z r.destino r.velocidade r.tick
      r.direcao).map fun res =>
    let rr : ℚ := r.storage + (rng.statR : ℚ) / 7
    let s1 : ℤ := if rr < 15 then r.sensores + 1 else r.sensores
    let s2 : ℤ := if rr > 90 ∧ s1 > 0 then s1 - 1 else s1
    { r.toS with
      pos_x := res.1, pos_y := res.2.1, pos_z := res.2.2.1
      direcao := res.2.2.2
      velocidade := max 0 (r.velocidade + (rng.variacaoVel : ℚ))
      proc_use := (rng.procUse : ℚ)
      storage := rr
      sensores := s2
      bateria := max 0 (r.bateria - 1/2) }

/-- `Rover.iterar` (Miguel/v3.0_TCP_UDP/roverINFO.py).  At the destination
the position is snapped, a 100 percent progress resets the mission fields,
and an assigned mission accrues one tick of work (`working / duracao`
raises `ZeroDivisionError` when `duracao = 0`, modelled as `none`).  Away
from the destination the rover moves and enters state 2. -/
def iterar (rng : Rng) (r : Rover) : Option RoverS :=
  if estaNoDestino r.pos_x r.pos_y r.pos_z r.destino then
    let r1 := { r with pos_x := r.destino.1, pos_y := r.destino.2.1,
                       pos_z := r.destino.2.2 }
    let r2 := if r1.progresso = 100 then
        { r1 with progresso := 0, missao := 0, state := 0, working := 0 }
      else r1
    if r2.missao ≠ 0 then
      if r2.duracao = 0 then none
      else
        let working : ℕ := r2.working + 1
        let ateAgora : ℚ := (working : ℚ) / r2.duracao * 100
        some { r2 with state := 1, working := working,
                       progresso := min 100 (pyInt ateAgora) }.toS
    else some r2.toS
  else
    (moverRover rng r).map fun rs => { rs with state := 2 }

/-- `Rover.atribiuMission`. -/
def atribiuMission (r : Rover) (miss : ℕ) : Rover :=
  { r with missao := miss, working := 0 }

end RoverM

namespace NM

open RoverM

/-- A mission descriptor tuple
`(mission_id, task_number, x, y, radius, duracao)`, exactly the tuples the
dispatcher stores in `tarefas` and `manual_missions`. -/
abbrev Missao := ℕ × ℕ × ℚ × ℚ × ℚ × ℚ

instance : DecidableEq Missao := inferInstance

/-- Python `dict` keyed by `stream_id`, as an association list with unique
keys (assignment replaces, `pop` removes). -/
abbrev Dict (α : Type) := List (ℕ × α)

def dget {α : Type} (d : Dict α) (k : ℕ) : Option α :=
  (d.find? fun p => p.1 == k).map (·.2)

def dset {α : Type} : Dict α → ℕ → α → Dict α
  | [], k, v => [(k, v)]
  | (k0, v0) :: t, k, v =>
    if k0 = k then (k, v) :: t else (k0, v0) :: dset t k v

def dpop {α : Type} (d : Dict α) (k : ℕ) : Dict α :=
  d.filter fun p => p.1 != k

/-- The typed content of an ML datagram payload.  The dispatcher builds its
replies by passing these fields to `ml.build_payload_mission` /
`ml.build_message` and caches the resulting bytes verbatim; since
`build_message` is deterministic, the cached bytes are identical exactly
when these fields are identical, so the dispatcher model keeps the
datagram structure instead of the float32-encoded bytes.  `invalid` stands
for an inbound payload on which `parse_payload_progress` /
`parse_payload_done` raises `ValueError`. -/
inductive PayloadData where
  | empty
  | missionP (mission_id task_number : ℕ) (x y radius duracao : ℚ)
  | progressP (mission_id status percent battery : ℕ) (x y : ℚ)
  | doneP (mission_id result_code : ℕ)
  | invalid
deriving DecidableEq

/-- An ML datagram as the dispatcher sends it: the arguments it passes to
`ml.build_message`. -/
structure MLMsg where
  msg_type : ℕ
  seq : ℕ
  ack : ℕ
  stream_id : ℕ
  payload : PayloadData
  flags : ℕ
deriving DecidableEq

/-- Result of `ml.parse_payload_progress`. -/
structure ProgressInfo where
  mission_id : ℕ
  status : ℕ
  percent : ℕ
  battery : ℕ
  x : ℚ
  y : ℚ
deriving DecidableEq

/-- `ml.parse_payload_progress` at the datagram level: succeeds exactly on
a well-formed PROGRESS payload. -/
def parse_payload_progress : PayloadData → Option ProgressInfo
  | .progressP mid st p b x y => some ⟨mid, st, p, b, x, y⟩
  | _ => none

/-- Result of `ml.parse_payload_done`. -/
structure DoneInfo where
  mission_id : ℕ
  result_code : ℕ
deriving DecidableEq

/-- `ml.parse_payload_done` at the datagram level. -/
def parse_payload_done : PayloadData → Option DoneInfo
  | .doneP mid rc => some ⟨mid, rc⟩
  | _ => none

/-- One entry of `ml_estado` (the per-rover dispatcher record). -/
structure Estado where
  mission_id : ℕ
  task_number : ℕ
  target : ℚ × ℚ
  radius : ℚ
  duracao : ℚ
  ultimo_progress : Option ProgressInfo
  done : Bool
deriving DecidableEq

/-- One entry of `ml_pending_mission` (the pending-reply cache). -/
structure Pending where
  mission_seq : Option ℕ
  reply_bytes : MLMsg
  missao : Option Missao
deriving DecidableEq

/-- The dispatcher-relevant state of `NaveMae` (versaofinal/navemae.py).
Sockets, threads and the WebSocket side are outside the state machine. -/
structure NaveMae where
  tarefas : List Missao
  scenario : ℕ
  task_counter : ℕ
  manual_missions : Dict (List Missao)
  manual_task_counter : ℕ
  ml_seq : ℕ
  ml_estado : Dict Estado
  ml_last_seq : Dict ℕ
  ml_pending_mission : Dict Pending
  rovers : List Rover
deriving DecidableEq

/-- `NaveMae.__init__` (dispatcher fields). -/
def initNaveMae (roversN : ℕ) : NaveMae :=
  { tarefas := []
    scenario := 3
    task_counter := 0
    manual_missions := []
    manual_task_counter := 1000
    ml_seq := 1
    ml_estado := []
    ml_last_seq := []
    ml_pending_mission := []
    rovers := (List.range roversN).map fun i => { id := i } }

/-- `NaveMae._prox_seq_ml`: returns the current sequence number and
increments the counter. -/
def prox_seq_ml (st : NaveMae) : ℕ × NaveMae :=
  (st.ml_seq, { st with ml_seq := st.ml_seq + 1 })

/-- One draw of the random quantities of `NaveMae.criaTarefa`:
`randint(1,6)`, two `randint(0,15)`, the `randint(1,3)` coin and the two
duration draws. -/
structure TaskRng where
  missionId : ℕ
  x : ℕ
  y : ℕ
  coin : ℕ
  durA : ℕ
  durB : ℕ
deriving DecidableEq

/-- `NaveMae.criaTarefa`: a random mission with radius 2.0. -/
def criaTarefa (rng : TaskRng) (task_id : ℕ) : Missao :=
  (rng.missionId, task_id, (rng.x : ℚ), (rng.y : ℚ), 2,
    if rng.coin = 1 then (rng.durA : ℚ) else (rng.durB : ℚ))

/-- `NaveMae.gerar_tarefas`: scenario 1 and 3 leave the queue empty,
scenario 2 generates two random missions, scenario 4 installs the four
fixed missions; any other scenario raises `ValueError` (`none`). -/
def gerar_tarefas (r1 r2 : TaskRng) (scenario : ℕ) : Option (List Missao) :=
  if scenario = 1 then some []
  else if scenario = 2 then some [criaTarefa r1 1, criaTarefa r2 2]
  else if scenario = 3 then some []
  else if scenario = 4 then
    some [(1, 1, 2, 2, 2, 30), (2, 2, 8, 3, 2, 35),
          (3, 3, 12, 10, 2, 40), (4, 4, 5, 12, 2, 45)]
  else none

/-- `NaveMae._ml_is_duplicate`: first message from a stream records the
sequence and is fresh; a larger sequence advances the record and is fresh;
otherwise the message is a duplicate exactly when the sequence equals the
recorded one.  The updated state is returned because the check mutates
`ml_last_seq`. -/
def ml_is_duplicate (st : NaveMae) (stream_id : ℕ) (header : ML.MLHeader) :
    Bool × NaveMae :=
  match dget st.ml_last_seq stream_id with
  | none =>
    (false, { st with ml_last_seq := dset st.ml_last_seq stream_id header.seq })
  | some last =>
    if header.seq > last then
      (false,
        { st with ml_last_seq := dset st.ml_last_seq stream_id header.seq })
    else (header.seq == last, st)

/-- Build-and-send of the ACK-ONLY reply that every PROGRESS / DONE branch
of the source repeats: fresh sequence from `_prox_seq_ml`, `ack` echoing
the inbound sequence. -/
def sendAck (st : NaveMae) (stream_id ackNum : ℕ) : NaveMae × MLMsg :=
  let (s, st1) := prox_seq_ml st
  (st1, ⟨ML.TYPE_ACK, s, ackNum, stream_id, .empty, ML.FLAG_ACK_ONLY⟩)

/-- `self.rovers[stream_id - 1].atribiuMission(mission_id)` guarded by
`try ... except: pass`: Python evaluates `stream_id - 1`, so `stream_id = 0`
addresses the last rover, an out-of-range index leaves the list unchanged. -/
def atribuiRover (rovers : List Rover) (stream_id mission_id : ℕ) :
    List Rover :=
  if stream_id = 0 then
    match rovers.length with
    | 0 => rovers
    | n + 1 => rovers.set n (atribiuMission (rovers.getD n { id := 0 }) mission_id)
  else if stream_id - 1 < rovers.length then
    rovers.set (stream_id - 1)
      (atribiuMission (rovers.getD (stream_id - 1) { id := 0 }) mission_id)
  else rovers

/-- `NaveMae._ml_handle_ready`.  Replays the cached pending reply if one
exists; otherwise picks a mission (manual queue head first, then the
automatic queue for scenarios 1/2/4 or a fresh random mission for
scenario 3) and answers MISSION, or NOMISSION when nothing is available,
caching the reply.  Returns the new state and the sent datagrams. -/
def handle_ready (rng : TaskRng) (st : NaveMae) (stream_id : ℕ)
    (header : ML.MLHeader) (addr : ℕ) : NaveMae × List (MLMsg × ℕ) :=
  match dget st.ml_pending_mission stream_id with
  | some pending => (st, [(pending.reply_bytes, addr)])
  | none =>
    let manualHead : Option Missao :=
      match dget st.manual_missions stream_id with
      | some (m :: _) => some m
      | _ => none
    let missao : Option Missao :=
      match manualHead with
      | some m => some m
      | none =>
        if st.scenario = 1 ∨ st.scenario = 2 ∨ st.scenario = 4 then
          st.tarefas.head?
        else if st.scenario = 3 then
          some (criaTarefa rng (st.task_counter + 1))
        else none
    match missao with
    | none =>
      let (reply_seq, st1) := prox_seq_ml st
      let msg : MLMsg :=
        ⟨ML.TYPE_NOMISSION, reply_seq, header.seq, stream_id, .empty,
          ML.FLAG_NEEDS_ACK⟩
      ({ st1 with
          ml_pending_mission := dset st1.ml_pending_mission stream_id
            ⟨none, msg, none⟩ }, [(msg, addr)])
    | some m =>
      let (mission_id, task_number, x, y, radius, duracao) := m
      let payload : PayloadData := .missionP mission_id task_number x y radius duracao
      let st1 :=
        { st with
          ml_estado := dset st.ml_estado stream_id
            ⟨mission_id, task_number, (x, y), radius, duracao, none, false⟩
          rovers := atribuiRover st.rovers stream_id mission_id }
      let (mission_seq, st2) := prox_seq_ml st1
      let msg : MLMsg :=
        ⟨ML.TYPE_MISSION, mission_seq, header.seq, stream_id, payload,
          ML.FLAG_NEEDS_ACK⟩
      ({ st2 with
          ml_pending_mission := dset st2.ml_pending_mission stream_id
            ⟨some mission_seq, msg, some m⟩ }, [(msg, addr)])

/-- `NaveMae._ml_handle_progress`: parse failure sends nothing; a missing
or mismatching active mission is acknowledged without mutation; then the
duplicate check runs (itself possibly advancing `ml_last_seq`), a
duplicate is acknowledged without mutation, and a fresh message stores
`ultimo_progress` and is acknowledged. -/
def handle_progress (st : NaveMae) (stream_id : ℕ) (header : ML.MLHeader)
    (payload : PayloadData) (addr : ℕ) : NaveMae × List (MLMsg × ℕ) :=
  match parse_payload_progress payload with
  | none => (st, [])
  | some info =>
    match dget st.ml_estado stream_id with
    | none =>
      let (st1, ack) := sendAck st stream_id header.seq
      (st1, [(ack, addr)])
    | some estado =>
      if estado.mission_id ≠ info.mission_id then
        let (st1, ack) := sendAck st stream_id header.seq
        (st1, [(ack, addr)])
      else
        let (dup, stD) := ml_is_duplicate st stream_id header
        if dup then
          let (st1, ack) := sendAck stD stream_id header.seq
          (st1, [(ack, addr)])
        else
          let st1 :=
            { stD with
              ml_estado := dset stD.ml_estado stream_id
                { estado with ultimo_progress := some info } }
          let (st2, ack) := sendAck st1 stream_id header.seq
          (st2, [(ack, addr)])

/-- `NaveMae._ml_handle_done`: parse failure sends nothing; a missing or
mismatching active mission is acknowledged without mutation; a duplicate
sequence or an already set `done` flag is acknowledged without further
mutation (the duplicate check itself may advance `ml_last_seq`); otherwise
`done` is set and the message acknowledged.  The mirror rovers are not
touched. -/
def handle_done (st : NaveMae) (stream_id : ℕ) (header : ML.MLHeader)
    (payload : PayloadData) (addr : ℕ) : NaveMae × List (MLMsg × ℕ) :=
  match parse_payload_done payload with
  | none => (st, [])
  | some info =>
    match dget st.ml_estado stream_id with
    | none =>
      let (st1, ack) := sendAck st stream_id header.seq
      (st1, [(ack, addr)])
    | some estado =>
      if estado.mission_id ≠ info.mission_id then
        let (st1, ack) := sendAck st stream_id header.seq
        (st1, [(ack, addr)])
      else
        let (dup, stD) := ml_is_duplicate st stream_id header
        if dup || estado.done then
          let (st1, ack) := sendAck stD stream_id header.seq
          (st1, [(ack, addr)])
        else
          let st1 :=
            { stD with
              ml_estado := dset stD.ml_estado stream_id
                { estado with done := true } }
          let (st2, ack) := sendAck st1 stream_id header.seq
          (st2, [(ack, addr)])

/-- The `TYPE_ACK` branch of `NaveMae._cicloML`.  A matching acknowledged
mission removes the pending entry, pops the manual queue head when it
equals the acknowledged descriptor (removing an emptied queue), and then
unconditionally runs the scenario block: scenarios 2/4 pop the automatic
head when it equals the descriptor, scenario 3 increments `task_counter`.
A pending NOMISSION (`mission_seq` None) is removed on any ACK. -/
def handle_ack (st : NaveMae) (stream_id : ℕ) (header : ML.MLHeader) :
    NaveMae :=
  match dget st.ml_pending_mission stream_id with
  | none => st
  | some pending =>
    match pending.mission_seq with
    | some mseq =>
      if header.ack = mseq then
        let st1 :=
          { st with
            ml_pending_mission := dpop st.ml_pending_mission stream_id }
        let st2 : NaveMae :=
          match dget st1.manual_missions stream_id with
          | some (m :: rest) =>
            if pending.missao = some m then
              { st1 with
                manual_missions :=
                  if rest = [] then dpop st1.manual_missions stream_id
                  else dset st1.manual_missions stream_id rest }
            else st1
          | _ => st1
        if st2.scenario = 2 ∨ st2.scenario = 4 then
          match st2.tarefas with
          | t :: ts =>
            if pending.missao = some t then { st2 with tarefas := ts } else st2
          | [] => st2
        else if st2.scenario = 3 then
          { st2 with task_counter := st2.task_counter + 1 }
        else st2
      else st
    | none =>
      { st with ml_pending_mission := dpop st.ml_pending_mission stream_id }

/-- Iterated redelivery of the same READY datagram, threading the state
and collecting the replies. -/
def replayReady (rng : TaskRng) : ℕ → NaveMae → ℕ → ML.MLHeader → ℕ →
    NaveMae × List (MLMsg × ℕ)
  | 0, st, _, _, _ => (st, [])
  | n + 1, st, sid, header, addr =>
    let (st1, out1) := handle_ready rng st sid header addr
    let (st2, out2) := replayReady rng n st1 sid header addr
    (st2, out1 ++ out2)

/-- Iterated redelivery of the same PROGRESS datagram. -/
def replayProgress : ℕ → NaveMae → ℕ → ML.MLHeader → PayloadData → ℕ →
    NaveMae × List (MLMsg × ℕ)
  | 0, st, _, _, _, _ => (st, [])
  | n + 1, st, sid, header, payload, addr =>
    let (st1, out1) := handle_progress st sid header payload addr
    let (st2, out2) := replayProgress n st1 sid header payload addr
    (st2, out1 ++ out2)

/-- Iterated redelivery of the same DONE datagram. -/
def replayDone : ℕ → NaveMae → ℕ → ML.MLHeader → PayloadData → ℕ →
    NaveMae × List (MLMsg × ℕ)
  | 0, st, _, _, _, _ => (st, [])
  | n + 1, st, sid, header, payload, addr =>
    let (st1, out1) := handle_done st sid header payload addr
    let (st2, out2) := replayDone n st1 sid header payload addr
    (st2, out1 ++ out2)

/-- Every dispatcher-state component except the outgoing sequence counter
(which every ACK-ONLY reply advances by construction). -/
def dispatchState (st : NaveMae) :=
  (st.tarefas, st.scenario, st.task_counter, st.manual_missions,
    st.manual_task_counter, st.ml_estado, st.ml_last_seq,
    st.ml_pending_mission, st.rovers)

end NM

section ExampleStates

/-! Concrete states and datagrams used to evaluate the embedded handlers
at specific inputs. -/

/-- A manual mission descriptor as the operator path produces it. -/
def exM0 : NM.Missao := (4, 1001, 5, 5, 2, 90)

/-- The cached MISSION reply of sequence 10 for rover 2 carrying `exM0`. -/
def exMissionMsg : NM.MLMsg :=
  ⟨ML.TYPE_MISSION, 10, 1, 2, .missionP 4 1001 5 5 2 90, ML.FLAG_NEEDS_ACK⟩

/-- A pending-reply cache entry for that MISSION. -/
def exPend3 : NM.Pending := ⟨some 10, exMissionMsg, some exM0⟩

/-- Scenario 3 dispatcher holding the manual mission `exM0` for rover 2,
with the MISSION reply still unacknowledged. -/
def exSt3 : NM.NaveMae :=
  { NM.initNaveMae 0 with
    scenario := 3
    manual_missions := [(2, [exM0])]
    ml_pending_mission := [(2, exPend3)] }

/-- An inbound ACK from rover 2 with `ack = 10`. -/
def exHdrA : ML.MLHeader := ⟨1, 4, 2, 20, 5, 10, 2, 0, 0⟩

/-- The dispatcher record for rover 1 with active mission 7 and no
progress stored yet. -/
def exEstado2 : NM.Estado := ⟨7, 3, (1, 2), 2, 60, none, false⟩

/-- Dispatcher that has already seen sequence 5 from rover 1. -/
def exSt2 : NM.NaveMae :=
  { NM.initNaveMae 0 with
    ml_estado := [(1, exEstado2)]
    ml_last_seq := [(1, 5)] }

/-- An inbound PROGRESS header from rover 1 with the old sequence 3. -/
def exHdr3 : ML.MLHeader := ⟨1, 2, 1, 20, 3, 0, 1, 12, 0⟩

/-- An inbound PROGRESS header from rover 1 with sequence 5 (equal to the
recorded last sequence). -/
def exHdr5 : ML.MLHeader := ⟨1, 2, 1, 20, 5, 0, 1, 12, 0⟩

/-- A PROGRESS payload for mission 7 at 30 percent. -/
def exPl2 : NM.PayloadData := .progressP 7 0 30 90 1 2

/-- The parsed form of `exPl2`. -/
def exInfo2 : NM.ProgressInfo := ⟨7, 0, 30, 90, 1, 2⟩

/-- The dispatcher record for rover 1 with active mission 5, not done. -/
def exEstado4 : NM.Estado := ⟨5, 1, (1, 1), 2, 60, none, false⟩

/-- Mirror rover 0 with assigned mission 5. -/
def exRover4 : RoverM.Rover := { id := 0, missao := 5 }

/-- Dispatcher about to receive the first DONE for mission 5 of rover 1. -/
def exSt4 : NM.NaveMae :=
  { NM.initNaveMae 0 with
    ml_estado := [(1, exEstado4)]
    rovers := [exRover4] }

/-- An inbound DONE header from rover 1 with sequence 9. -/
def exHdrD : ML.MLHeader := ⟨1, 3, 1, 20, 9, 0, 1, 2, 0⟩

/-- A DONE payload for mission 5 with result code 0. -/
def exPlD : NM.PayloadData := .doneP 5 0

/-- A fixed draw of the random mission generator. -/
def exTRng : NM.TaskRng := ⟨1, 1, 1, 1, 30, 45⟩

/-- Freshly started mothership configured with scenario 1. -/
def exSt6 : NM.NaveMae := { NM.initNaveMae 3 with scenario := 1 }

/-- An inbound READY header from rover 1 with sequence 1. -/
def exHdrR : ML.MLHeader := ⟨1, 0, 1, 20, 1, 0, 1, 0, 0⟩

/-- A cached NOMISSION reply (sequence 3) for rover 1. -/
def exNoMsg : NM.MLMsg := ⟨ML.TYPE_NOMISSION, 3, 1, 1, .empty, ML.FLAG_NEEDS_ACK⟩

/-- The pending-reply entry for that NOMISSION (no sequence to match). -/
def exPend9 : NM.Pending := ⟨none, exNoMsg, none⟩

/-- Dispatcher with a stale pending NOMISSION for rover 1 while a manual
mission for rover 1 has meanwhile become available. -/
def exSt9 : NM.NaveMae :=
  { NM.initNaveMae 0 with
    manual_missions := [(1, [exM0])]
    ml_pending_mission := [(1, exPend9)] }

/-- A rover with 100 percent progress that is not at its destination. -/
def exR7 : RoverM.Rover :=
  { id := 1, destino := (10, 0, 0), velocidade := 0, progresso := 100,
    missao := 5, state := 1, working := 30 }

/-- A rover with 100 percent progress standing at its destination. -/
def exR7b : RoverM.Rover :=
  { id := 1, destino := (0, 0, 0), progresso := 100, missao := 5, state := 1,
    working := 30 }

/-- A fixed draw of the per-step randomness. -/
def exRng : RoverM.Rng := ⟨0, 50, 50⟩

/-- A valid READY datagram followed by three trailing junk bytes. -/
def exD0 : List ℕ := ML.build_message 0 1 0 1 [] 1 1 ++ [7, 7, 7]

end ExampleStates

/-! Helper lemmas about the dictionary model. -/

theorem NM.dget_dset_self {α : Type} (d : NM.Dict α) (k : ℕ) (v : α) :
    NM.dget (NM.dset d k v) k = some v := by
  induction d with
  | nil => simp [NM.dget, NM.dset]
  | cons hd t ih =>
    obtain ⟨k0, v0⟩ := hd
    by_cases h : k0 = k
    · subst h
      simp [NM.dget, NM.dset]
    · simp only [NM.dset, if_neg h]
      simpa [NM.dget, List.find?_cons, h] using ih

theorem NM.dget_dpop_self {α : Type} (d : NM.Dict α) (k : ℕ) :
    NM.dget (NM.dpop d k) k = none := by
  induction d with
  | nil => simp [NM.dget, NM.dpop]
  | cons hd t ih =>
    obtain ⟨k0, v0⟩ := hd
    by_cases h : k0 = k
    · subst h
      simp [NM.dpop] at ih ⊢
      exact ih
    · simp [NM.dpop, NM.dget, List.find?_cons, h] at ih ⊢

theorem NM.handle_ready_pending (rng : NM.TaskRng) (st : NM.NaveMae)
    (sid addr : ℕ) (hdr : ML.MLHeader) (p : NM.Pending)
    (hp : NM.dget st.ml_pending_mission sid = some p) :
    NM.handle_ready rng st sid hdr addr = (st, [(p.reply_bytes, addr)]) := by
  unfold NM.handle_ready
  rw [hp]

/-- Claim C1: for every rover stream with a non-empty pending-reply entry,
every re-received READY is answered with exactly the cached reply datagram
(same type, sequence and payload), any number of times, with the whole
dispatcher state (in particular every mission queue) unchanged; and an ACK
whose ack equals the cached mission sequence removes the entry. -/
theorem claim_C1_ready_replay_idempotent (rng : NM.TaskRng) (st : NM.NaveMae)
    (sid addr : ℕ) (hdr : ML.MLHeader) (p : NM.Pending) (n : ℕ)
    (hp : NM.dget st.ml_pending_mission sid = some p) :
    (NM.replayReady rng n st sid hdr addr).1 = st ∧
    (NM.replayReady rng n st sid hdr addr).2 =
      List.replicate n (p.reply_bytes, addr) ∧
    ∀ (hdr2 : ML.MLHeader) (s : ℕ), p.mission_seq = some s → hdr2.ack = s →
      NM.dget (NM.handle_ack st sid hdr2).ml_pending_mission sid = none := by
  refine ⟨?_, ?_, ?_⟩
  · induction n with
    | zero => rfl
    | succ n ih =>
      simp only [NM.replayReady, NM.handle_ready_pending rng st sid addr hdr p hp]
      exact ih
  · induction n with
    | zero => rfl
    | succ n ih =>
      simp only [NM.replayReady, NM.handle_ready_pending rng st sid addr hdr p hp]
      simp [ih, List.replicate_succ]
  · intro hdr2 s hms hack
    subst hack
    simp only [NM.handle_ack, hp, hms, if_true]
    repeat' split
    all_goals simp [NM.dget_dpop_self]

/-- Claim C1 witness: the theorem applied to the concrete scenario-3 state
with a cached MISSION reply for rover 2, replayed twice, then acknowledged. -/
theorem claim_C1_witness :
    NM.dget exSt3.ml_pending_mission 2 = some exPend3 ∧
    (NM.replayReady exTRng 2 exSt3 2 exHdrR 0).1 = exSt3 ∧
    (NM.replayReady exTRng 2 exSt3 2 exHdrR 0).2 =
      List.replicate 2 (exPend3.reply_bytes, 0) ∧
    NM.dget (NM.handle_ack exSt3 2 exHdrA).ml_pending_mission 2 = none := by
  have h := claim_C1_ready_replay_idempotent exTRng exSt3 2 0 exHdrR exPend3 2
    (by decide)
  exact ⟨by decide, h.1, h.2.1, h.2.2 exHdrA 10 (by decide) (by decide)⟩

/-- Claim C2 counterexample: rover 1 has `last_seq_seen = 5`; an inbound
PROGRESS with `seq = 3 ≤ 5` is nevertheless processed as fresh and
overwrites `ultimo_progress`, so the dispatcher state is mutated. -/
theorem claim_C2_counterexample :
    exHdr3.seq ≤ 5 ∧
    NM.dget exSt2.ml_last_seq 1 = some 5 ∧
    (NM.dget exSt2.ml_estado 1).map NM.Estado.ultimo_progress = some none ∧
    (NM.dget (NM.handle_progress exSt2 1 exHdr3 exPl2 0).1.ml_estado 1).map
      NM.Estado.ultimo_progress = some (some exInfo2) :=
  ⟨by decide, by decide, by decide, by decide⟩

/-- Claim C2 (amended): a PROGRESS or DONE datagram is treated as a
duplicate exactly when its sequence equals `last_seq_seen[stream_id]`
(not for every smaller sequence); such a datagram is answered with a
single ACK-ONLY reply and leaves every dispatcher-state component other
than the outgoing sequence counter unchanged, for any number of replays. -/
theorem claim_C2_duplicate_eq_seq (st : NM.NaveMae) (sid addr : ℕ)
    (hdr : ML.MLHeader) (pl1 pl2 : NM.PayloadData) (info1 : NM.ProgressInfo)
    (info2 : NM.DoneInfo) (e : NM.Estado) (last : ℕ)
    (hp1 : NM.parse_payload_progress pl1 = some info1)
    (hp2 : NM.parse_payload_done pl2 = some info2)
    (he : NM.dget st.ml_estado sid = some e)
    (h1 : e.mission_id = info1.mission_id)
    (h2 : e.mission_id = info2.mission_id)
    (hl : NM.dget st.ml_last_seq sid = some last)
    (hseq : hdr.seq = last) :
    (∀ n, NM.dispatchState (NM.replayProgress n st sid hdr pl1 addr).1 =
        NM.dispatchState st) ∧
    (NM.handle_progress st sid hdr pl1 addr).2 =
      [(⟨ML.TYPE_ACK, st.ml_seq, hdr.seq, sid, .empty, ML.FLAG_ACK_ONLY⟩, addr)] ∧
    (∀ n, NM.dispatchState (NM.replayDone n st sid hdr pl2 addr).1 =
        NM.dispatchState st) ∧
    (NM.handle_done st sid hdr pl2 addr).2 =
      [(⟨ML.TYPE_ACK, st.ml_seq, hdr.seq, sid, .empty, ML.FLAG_ACK_ONLY⟩, addr)] := by
  subst hseq
  have hdup : ∀ st2 : NM.NaveMae, NM.dget st2.ml_last_seq sid = some hdr.seq →
      NM.ml_is_duplicate st2 sid hdr = (true, st2) := by
    intro st2 hl2
    simp [NM.ml_is_duplicate, hl2]
  have hstep1 : ∀ st2 : NM.NaveMae, NM.dget st2.ml_estado sid = some e →
      NM.dget st2.ml_last_seq sid = some hdr.seq →
      NM.handle_progress st2 sid hdr pl1 addr =
        ({ st2 with ml_seq := st2.ml_seq + 1 },
          [(⟨ML.TYPE_ACK, st2.ml_seq, hdr.seq, sid, .empty,
              ML.FLAG_ACK_ONLY⟩, addr)]) := by
    intro st2 he2 hl2
    simp only [NM.handle_progress, hp1, he2, hdup st2 hl2]
    rw [if_neg (by simp [h1])]
    simp [NM.sendAck, NM.prox_seq_ml]
  have hstep2 : ∀ st2 : NM.NaveMae, NM.dget st2.ml_estado sid = some e →
      NM.dget st2.ml_last_seq sid = some hdr.seq →
      NM.handle_done st2 sid hdr pl2 addr =
        ({ st2 with ml_seq := st2.ml_seq + 1 },
          [(⟨ML.TYPE_ACK, st2.ml_seq, hdr.seq, sid, .empty,
              ML.FLAG_ACK_ONLY⟩, addr)]) := by
    intro st2 he2 hl2
    simp only [NM.handle_done, hp2, he2, hdup st2 hl2]
    rw [if_neg (by simp [h2])]
    simp [NM.sendAck, NM.prox_seq_ml]
  have hn1 : ∀ n (st2 : NM.NaveMae), NM.dget st2.ml_estado sid = some e →
      NM.dget st2.ml_last_seq sid = some hdr.seq →
      NM.dispatchState (NM.replayProgress n st2 sid hdr pl1 addr).1 =
        NM.dispatchState st2 := by
    intro n
    induction n with
    | zero => intro st2 _ _; rfl
    | succ n ih =>
      intro st2 he2 hl2
      simp only [NM.replayProgress, hstep1 st2 he2 hl2]
      exact ih { st2 with ml_seq := st2.ml_seq + 1 } he2 hl2
  have hn2 : ∀ n (st2 : NM.NaveMae), NM.dget st2.ml_estado sid = some e →
      NM.dget st2.ml_last_seq sid = some hdr.seq →
      NM.dispatchState (NM.replayDone n st2 sid hdr pl2 addr).1 =
        NM.dispatchState st2 := by
    intro n
    induction n with
    | zero => intro st2 _ _; rfl
    | succ n ih =>
      intro st2 he2 hl2
      simp only [NM.replayDone, hstep2 st2 he2 hl2]
      exact ih { st2 with ml_seq := st2.ml_seq + 1 } he2 hl2
  refine ⟨fun n => hn1 n st he hl, ?_, fun n => hn2 n st he hl, ?_⟩
  · rw [hstep1 st he hl]
  · rw [hstep2 st he hl]

/-- Claim C2 witness: the amended theorem applied to the concrete state
`exSt2` (last sequence 5) with a PROGRESS and a DONE of sequence 5,
replayed twice. -/
theorem claim_C2_witness :
    NM.dget exSt2.ml_estado 1 = some exEstado2 ∧
    NM.dget exSt2.ml_last_seq 1 = some 5 ∧ exHdr5.seq = 5 ∧
    NM.dispatchState (NM.replayProgress 2 exSt2 1 exHdr5 exPl2 0).1 =
      NM.dispatchState exSt2 ∧
    (NM.handle_progress exSt2 1 exHdr5 exPl2 0).2 =
      [(⟨ML.TYPE_ACK, exSt2.ml_seq, exHdr5.seq, 1, .empty,
          ML.FLAG_ACK_ONLY⟩, 0)] := by
  have h := claim_C2_duplicate_eq_seq exSt2 1 0 exHdr5 exPl2 (.doneP 7 0)
    exInfo2 ⟨7, 0⟩ exEstado2 5 (by decide) (by decide) (by decide) (by decide)
    (by decide) (by decide) (by decide)
  exact ⟨by decide, by decide, by decide, h.1 2, h.2.1⟩

/-- Claim C3 counterexample: in scenario 3, the ACK for a manual mission
pops the manual queue head but also increments `task_counter`, which the
claim rules out. -/
theorem claim_C3_counterexample :
    exSt3.scenario = 3 ∧ exSt3.task_counter = 0 ∧
    NM.dget exSt3.manual_missions 2 = some [exM0] ∧
    NM.dget (NM.handle_ack exSt3 2 exHdrA).manual_missions 2 = none ∧
    (NM.handle_ack exSt3 2 exHdrA).task_counter = 1 :=
  ⟨by decide, by decide, by decide, by decide, by decide⟩

/-- Claim C3 (amended): when an ACK matches the pending mission sequence
and the acknowledged descriptor equals the head of the manual queue, that
head is popped exactly once (the emptied queue is removed) and the
automatic queue is popped only if its own head equals the same descriptor
in scenarios 2/4; however, in scenario 3 `task_counter` is incremented on
every matching ACK, including this manual one. -/
theorem claim_C3_ack_consumption (st : NM.NaveMae) (sid : ℕ)
    (hdr : ML.MLHeader) (p : NM.Pending) (mseq : ℕ) (m : NM.Missao)
    (rest : List NM.Missao)
    (hp : NM.dget st.ml_pending_mission sid = some p)
    (hms : p.mission_seq = some mseq)
    (hack : hdr.ack = mseq)
    (hmiss : p.missao = some m)
    (hman : NM.dget st.manual_missions sid = some (m :: rest)) :
    NM.dget (NM.handle_ack st sid hdr).ml_pending_mission sid = none ∧
    NM.dget (NM.handle_ack st sid hdr).manual_missions sid =
      (if rest = [] then none else some rest) ∧
    (NM.handle_ack st sid hdr).task_counter =
      st.task_counter + (if st.scenario = 3 then 1 else 0) ∧
    (NM.handle_ack st sid hdr).tarefas =
      (if (st.scenario = 2 ∨ st.scenario = 4) ∧ st.tarefas.head? = some m
        then st.tarefas.tail else st.tarefas) := by
  subst hack
  simp only [NM.handle_ack, hp, hms, if_true, eq_self_iff_true, hman, hmiss]
  by_cases h24 : st.scenario = 2 ∨ st.scenario = 4
  · have h3 : ¬ st.scenario = 3 := by rcases h24 with h | h <;> omega
    rw [if_pos h24]
    rcases ht : st.tarefas with _ | ⟨t, ts⟩
    · simp [ht, h24, h3, NM.dget_dpop_self]
      by_cases hr : rest = [] <;>
        simp [hr, NM.dget_dpop_self, NM.dget_dset_self]
    · by_cases hmt : m = t
      · simp [ht, h24, h3, hmt, NM.dget_dpop_self]
        by_cases hr : rest = [] <;>
          simp [hr, NM.dget_dpop_self, NM.dget_dset_self]
      · simp [ht, h24, h3, hmt, NM.dget_dpop_self, Ne.symm hmt]
        by_cases hr : rest = [] <;>
          simp [hr, NM.dget_dpop_self, NM.dget_dset_self]
  · rw [if_neg h24]
    by_cases h3 : st.scenario = 3
    · simp [h24, h3, NM.dget_dpop_self]
      by_cases hr : rest = [] <;>
        simp [hr, NM.dget_dpop_self, NM.dget_dset_self]
    · simp [h24, h3, NM.dget_dpop_self]
      by_cases hr : rest = [] <;>
        simp [hr, NM.dget_dpop_self, NM.dget_dset_self]

/-- Claim C3 witness: the amended theorem applied to the concrete
scenario-3 state with one pending manual mission for rover 2. -/
theorem claim_C3_witness :
    NM.dget exSt3.ml_pending_mission 2 = some exPend3 ∧
    NM.dget exSt3.manual_missions 2 = some [exM0] ∧
    NM.dget (NM.handle_ack exSt3 2 exHdrA).ml_pending_mission 2 = none ∧
    NM.dget (NM.handle_ack exSt3 2 exHdrA).manual_missions 2 =
      (if ([] : List NM.Missao) = [] then none else some []) ∧
    (NM.handle_ack exSt3 2 exHdrA).task_counter =
      exSt3.task_counter + (if exSt3.scenario = 3 then 1 else 0) := by
  have h := claim_C3_ack_consumption exSt3 2 exHdrA exPend3 10 exM0 []
    (by decide) (by decide) (by decide) (by decide) (by decide)
  exact ⟨by decide, by decide, h.1, h.2.1, h.2.2.1⟩

theorem NM.ml_is_duplicate_keeps (st : NM.NaveMae) (sid : ℕ)
    (hdr : ML.MLHeader) :
    (NM.ml_is_duplicate st sid hdr).2.ml_estado = st.ml_estado ∧
    (NM.ml_is_duplicate st sid hdr).2.rovers = st.rovers ∧
    (NM.ml_is_duplicate st sid hdr).2.ml_seq = st.ml_seq := by
  unfold NM.ml_is_duplicate
  repeat' split
  all_goals simp

/-- Claim C4 counterexample: the first matching DONE for rover 1 sets the
`done` flag, but the mirror rover record is left completely unchanged with
its assigned mission id still 5 (nothing clears the mission fields). -/
theorem claim_C4_counterexample :
    (NM.dget exSt4.ml_estado 1).map NM.Estado.done = some false ∧
    (NM.dget (NM.handle_done exSt4 1 exHdrD exPlD 0).1.ml_estado 1).map
      NM.Estado.done = some true ∧
    (NM.handle_done exSt4 1 exHdrD exPlD 0).1.rovers = exSt4.rovers ∧
    exSt4.rovers.map RoverM.Rover.missao = [5] :=
  ⟨rfl, rfl, rfl, rfl⟩

/-- Claim C4 (amended): a first non-duplicate DONE matching the active
mission sets `done := true` and is answered with a single ACK-ONLY reply;
the mirror rover list is not modified (its mission fields are not
cleared). -/
theorem claim_C4_done_sets_flag (st : NM.NaveMae) (sid addr : ℕ)
    (hdr : ML.MLHeader) (payload : NM.PayloadData) (info : NM.DoneInfo)
    (e : NM.Estado)
    (hpd : NM.parse_payload_done payload = some info)
    (he : NM.dget st.ml_estado sid = some e)
    (hmid : e.mission_id = info.mission_id)
    (hdone : e.done = false)
    (hdup : (NM.ml_is_duplicate st sid hdr).1 = false) :
    NM.dget (NM.handle_done st sid hdr payload addr).1.ml_estado sid =
      some { e with done := true } ∧
    (NM.handle_done st sid hdr payload addr).1.rovers = st.rovers ∧
    (NM.handle_done st sid hdr payload addr).2 =
      [(⟨ML.TYPE_ACK, st.ml_seq, hdr.seq, sid, .empty,
          ML.FLAG_ACK_ONLY⟩, addr)] := by
  obtain ⟨k1, k2, k3⟩ := NM.ml_is_duplicate_keeps st sid hdr
  rcases hpr : NM.ml_is_duplicate st sid hdr with ⟨dup, stD⟩
  rw [hpr] at hdup k1 k2 k3
  simp only at hdup
  subst hdup
  simp only at k1 k2 k3
  simp only [NM.handle_done, hpd, he, hpr]
  rw [if_neg (by simp [hmid])]
  simp [hdone, NM.sendAck, NM.prox_seq_ml, NM.dget_dset_self, k1, k2, k3]

/-- Claim C4 witness: the amended theorem applied to the concrete first
DONE for mission 5 of rover 1. -/
theorem claim_C4_witness :
    NM.dget exSt4.ml_estado 1 = some exEstado4 ∧
    NM.dget (NM.handle_done exSt4 1 exHdrD exPlD 0).1.ml_estado 1 =
      some { exEstado4 with done := true } ∧
    (NM.handle_done exSt4 1 exHdrD exPlD 0).1.rovers = exSt4.rovers ∧
    (NM.handle_done exSt4 1 exHdrD exPlD 0).2 =
      [(⟨ML.TYPE_ACK, exSt4.ml_seq, exHdrD.seq, 1, .empty,
          ML.FLAG_ACK_ONLY⟩, 0)] := by
  have h := claim_C4_done_sets_flag exSt4 1 0 exHdrD exPlD ⟨5, 0⟩ exEstado4
    (by decide) (by decide) (by decide) (by decide) (by decide)
  exact ⟨by decide, h.1, h.2.1, h.2.2⟩

theorem ML.compute_checksum_lt (payload : List ℕ) :
    ML.compute_checksum payload < 4294967296 := by
  unfold ML.compute_checksum
  split
  · omega
  · exact Nat.mod_lt _ (by omega)

theorem ML.encode_header_length (h : ML.MLHeader) :
    (ML.encode_header h).length = 20 := rfl

theorem ML.readHeader_encode (h : ML.MLHeader) (rest : List ℕ)
    (hv : h.version < 256) (ht : h.msg_type < 256) (hf : h.flags < 256)
    (hh : h.hdr_len < 256) (hs : h.seq < 4294967296)
    (ha : h.ack < 4294967296) (hst : h.stream_id < 65536)
    (hp : h.payload_len < 65536) (hc : h.checksum < 4294967296) :
    ML.readHeader (ML.encode_header h ++ rest) = h := by
  obtain ⟨v, t, f, hl, s, a, si, pl, c⟩ := h
  simp only at hv ht hf hh hs ha hst hp hc
  have e1 : ML.readHeader (ML.encode_header ⟨v, t, f, hl, s, a, si, pl, c⟩
      ++ rest) =
      ⟨v % 256, t % 256, f % 256, hl % 256,
        ((s / 16777216 % 256 * 256 + s / 65536 % 256) * 256
            + s / 256 % 256) * 256 + s % 256,
        ((a / 16777216 % 256 * 256 + a / 65536 % 256) * 256
            + a / 256 % 256) * 256 + a % 256,
        si / 256 % 256 * 256 + si % 256,
        pl / 256 % 256 * 256 + pl % 256,
        ((c / 16777216 % 256 * 256 + c / 65536 % 256) * 256
            + c / 256 % 256) * 256 + c % 256⟩ := rfl
  rw [e1]
  simp only [ML.MLHeader.mk.injEq]
  refine ⟨?_, ?_, ?_, ?_, ?_, ?_, ?_, ?_, ?_⟩ <;> omega

/-- Claim C5: the ML codec round-trips.  For in-range header fields and
any payload, `parse_message (build_message ...)` succeeds and returns
exactly the header that `build_message` assembled (original type, flags,
sequence, ack, stream id, version, computed length and checksum) together
with the original payload bytes. -/
theorem claim_C5_codec_roundtrip (msg_type seq ack stream_id flags version : ℕ)
    (payload : List ℕ)
    (ht : msg_type < 256) (hf : flags < 256) (hv : version < 256)
    (hs : seq < 4294967296) (ha : ack < 4294967296)
    (hst : stream_id < 65536) (hp : payload.length < 65536) :
    ML.parse_message (ML.build_message msg_type seq ack stream_id payload
        flags version) =
      .ok (⟨version, msg_type, flags, ML.HEADER_SIZE, seq, ack, stream_id,
            payload.length, ML.compute_checksum payload⟩, payload) := by
  have hcs := ML.compute_checksum_lt payload
  unfold ML.build_message ML.parse_message
  set h : ML.MLHeader :=
    ⟨version, msg_type, flags, ML.HEADER_SIZE, seq, ack, stream_id,
      payload.length, ML.compute_checksum payload⟩ with hdef
  have hlen : (ML.encode_header h ++ payload).length = 20 + payload.length := by
    simp [ML.encode_header_length]
  have htake : (ML.encode_header h ++ payload).take ML.HEADER_SIZE =
      ML.encode_header h := by
    have e := List.take_left (ML.encode_header h) payload
    rwa [ML.encode_header_length] at e
  have hdrop : (ML.encode_header h ++ payload).drop ML.HEADER_SIZE =
      payload := by
    have e := List.drop_left (ML.encode_header h) payload
    rwa [ML.encode_header_length] at e
  have hread : ML.readHeader ((ML.encode_header h ++ payload).take
      ML.HEADER_SIZE) = h := by
    rw [htake, show ML.encode_header h = ML.encode_header h ++ [] from
      (List.append_nil _).symm]
    exact ML.readHeader_encode h [] hv ht hf
      (by show ML.HEADER_SIZE < 256; decide) hs ha hst hp hcs
  have h20 : ¬ ((ML.encode_header h ++ payload).length < ML.HEADER_SIZE) := by
    rw [hlen]
    show ¬ (20 + payload.length < 20)
    omega
  rw [if_neg h20]
  simp only [hread, hdrop, hdef, List.take_length]
  rw [if_neg (by simp), if_neg (by simp)]

/-- Claim C5 witness: the round-trip theorem applied to a concrete ACK
message with a two-byte payload. -/
theorem claim_C5_witness :
    (4 < 256 ∧ 2 < 256 ∧ 1 < 256 ∧ 7 < 4294967296 ∧ 3 < 4294967296 ∧
      1 < 65536 ∧ ([9, 250] : List ℕ).length < 65536) ∧
    ML.parse_message (ML.build_message 4 7 3 1 [9, 250] 2 1) =
      .ok (⟨1, 4, 2, ML.HEADER_SIZE, 7, 3, 1, ([9, 250] : List ℕ).length,
            ML.compute_checksum [9, 250]⟩, [9, 250]) :=
  ⟨⟨by decide, by decide, by decide, by decide, by decide, by decide,
      by decide⟩,
    claim_C5_codec_roundtrip 4 7 3 1 2 1 [9, 250] (by decide) (by decide)
      (by decide) (by decide) (by decide) (by decide) (by decide)⟩

/-- Claim C6 (code bug): `gerar_tarefas` leaves the automatic queue empty
for scenario 1 — despite the module docstring announcing one finite
mission — so the first READY of a freshly started scenario-1 mothership
is answered with NOMISSION instead of a MISSION. -/
theorem claim_C6_scenario1_empty :
    NM.gerar_tarefas exTRng exTRng 1 = some [] ∧
    exSt6.scenario = 1 ∧ exSt6.tarefas = [] ∧
    (NM.handle_ready exTRng exSt6 1 exHdrR 0).2.map
      (fun q => q.1.msg_type) = [ML.TYPE_NOMISSION] :=
  ⟨rfl, rfl, rfl, rfl⟩

/-- Claim C8 (code bug): the movement helper computes
`sqrt(dx^2 + dy^2 + dz*999*2)` instead of the Euclidean
`sqrt(dx^2 + dy^2 + dz^2)`.  For a destination strictly below the rover
(`dz = -1`) the radicand is negative and `math.sqrt` raises a domain
error (the step returns no result), although the Euclidean radicand of
the same input is nonnegative and the clamped Euclidean step would simply
arrive at the destination. -/
theorem claim_C8_distance_domain_error :
    RoverM.moverPasso 0 0 0 (0, 0, -1) 1 1 0 = none ∧
    (0 : ℚ) ≤ ((0 : ℚ) - 0) ^ 2 + ((0 : ℚ) - 0) ^ 2 + ((-1 : ℚ) - 0) ^ 2 ∧
    ((0 : ℚ) - 0) ^ 2 + ((0 : ℚ) - 0) ^ 2 + ((-1 : ℚ) - 0) ^ 2 ≤
      ((1 : ℚ) * 1) ^ 2 := by
  refine ⟨?_, by norm_num, by norm_num⟩
  unfold RoverM.moverPasso
  norm_num

/-- Claim C9 counterexample: rover 1 holds a pending NOMISSION entry and a
manual mission has become available; the next READY does not clear the
entry — it retransmits the stale NOMISSION and leaves the cache (and the
whole state) unchanged. -/
theorem claim_C9_counterexample :
    NM.dget exSt9.ml_pending_mission 1 = some exPend9 ∧
    exPend9.mission_seq = none ∧
    NM.dget exSt9.manual_missions 1 = some [exM0] ∧
    (NM.handle_ready exTRng exSt9 1 exHdrR 0).1 = exSt9 ∧
    (NM.handle_ready exTRng exSt9 1 exHdrR 0).2 = [(exNoMsg, 0)] :=
  ⟨rfl, rfl, rfl, rfl, rfl⟩

/-- Claim C9 (amended): a pending NOMISSION entry (`mission_seq` None) is
cleared only by an ACK — any ACK, whatever its ack number; a re-received
READY retransmits the cached NOMISSION bytes verbatim and does not clear
the entry, even when missions have meanwhile become available. -/
theorem claim_C9_nomission_pending (rng : NM.TaskRng) (st : NM.NaveMae)
    (sid addr : ℕ) (hdr hdr2 : ML.MLHeader) (p : NM.Pending)
    (hp : NM.dget st.ml_pending_mission sid = some p)
    (hms : p.mission_seq = none) :
    (NM.handle_ready rng st sid hdr addr).1 = st ∧
    (NM.handle_ready rng st sid hdr addr).2 = [(p.reply_bytes, addr)] ∧
    NM.dget (NM.handle_ack st sid hdr2).ml_pending_mission sid = none := by
  refine ⟨?_, ?_, ?_⟩
  · rw [NM.handle_ready_pending rng st sid addr hdr p hp]
  · rw [NM.handle_ready_pending rng st sid addr hdr p hp]
  · simp only [NM.handle_ack, hp, hms]
    exact NM.dget_dpop_self _ _

/-- Claim C9 witness: the amended theorem applied to the concrete stale
NOMISSION state with a manual mission available. -/
theorem claim_C9_witness :
    NM.dget exSt9.ml_pending_mission 1 = some exPend9 ∧
    exPend9.mission_seq = none ∧
    (NM.handle_ready exTRng exSt9 1 exHdrR 0).1 = exSt9 ∧
    (NM.handle_ready exTRng exSt9 1 exHdrR 0).2 = [(exPend9.reply_bytes, 0)] ∧
    NM.dget (NM.handle_ack exSt9 1 exHdrA).ml_pending_mission 1 = none := by
  have h := claim_C9_nomission_pending exTRng exSt9 1 0 exHdrR exHdrA exPend9
    (by decide) (by decide)
  exact ⟨by decide, by decide, h.1, h.2.1, h.2.2⟩

/-- Claim C7 counterexample: a rover with 100 percent progress that is not
at its destination does not reset on the next step — `iterar` moves it
instead, leaving `missao = 5` and `progresso = 100` with state MOVING. -/
theorem claim_C7_counterexample :
    exR7.progresso = 100 ∧
    (RoverM.iterar exRng exR7).map
      (fun s => (s.state, s.missao, s.progresso)) = some (2, 5, 100) := by
  refine ⟨rfl, ?_⟩
  norm_num [RoverM.iterar, RoverM.estaNoDestino, RoverM.moverRover,
    RoverM.moverPasso, RoverM.Rover.toS, exR7, exRng]

/-- Claim C7 (amended): reaching 100 percent progress resets the mission
on the following step only when the rover stands at its destination: in
that case the next `iterar` yields state IDLE (0), `missao = 0` and
`progresso = 0`. -/
theorem claim_C7_progress_reset (rng : RoverM.Rng) (r : RoverM.Rover)
    (hdest : RoverM.estaNoDestino r.pos_x r.pos_y r.pos_z r.destino = true)
    (hprog : r.progresso = 100) :
    (RoverM.iterar rng r).map (fun s => (s.state, s.missao, s.progresso)) =
      some (0, 0, 0) := by
  unfold RoverM.iterar
  simp [hdest, hprog, RoverM.Rover.toS]

/-- Claim C7 witness: the amended theorem applied to a rover standing at
its destination with 100 percent progress. -/
theorem claim_C7_witness :
    RoverM.estaNoDestino exR7b.pos_x exR7b.pos_y exR7b.pos_z exR7b.destino
      = true ∧
    exR7b.progresso = 100 ∧
    (RoverM.iterar exRng exR7b).map
      (fun s => (s.state, s.missao, s.progresso)) = some (0, 0, 0) :=
  ⟨by decide, by decide,
    claim_C7_progress_reset exRng exR7b (by decide) (by decide)⟩

/-- Claim C10: `parse_message` validates only a prefix.  For any input of
at least 20 bytes, with `L` the payload length declared by the decoded
header: if the input holds at least `20 + L` bytes and the declared
checksum matches the checksum of bytes `20..20+L`, parsing succeeds and
returns exactly those `L` bytes, silently discarding any trailing bytes;
and the payload-length-mismatch error is raised exactly when the input is
shorter than `20 + L` bytes. -/
theorem claim_C10_prefix_validation (data : List ℕ)
    (h20 : ML.HEADER_SIZE ≤ data.length) :
    (ML.HEADER_SIZE + (ML.readHeader (data.take ML.HEADER_SIZE)).payload_len
        ≤ data.length →
      (ML.readHeader (data.take ML.HEADER_SIZE)).checksum =
        ML.compute_checksum ((data.drop ML.HEADER_SIZE).take
          (ML.readHeader (data.take ML.HEADER_SIZE)).payload_len) →
      ML.parse_message data =
        .ok (ML.readHeader (data.take ML.HEADER_SIZE),
          (data.drop ML.HEADER_SIZE).take
            (ML.readHeader (data.take ML.HEADER_SIZE)).payload_len)) ∧
    (ML.parse_message data = .error .payloadLenMismatch ↔
      data.length <
        ML.HEADER_SIZE +
          (ML.readHeader (data.take ML.HEADER_SIZE)).payload_len) := by
  set L := (ML.readHeader (data.take ML.HEADER_SIZE)).payload_len with hL
  have hunfold : ML.parse_message data =
      (if ((data.drop ML.HEADER_SIZE).take L).length ≠ L then
        .error .payloadLenMismatch
      else if (ML.readHeader (data.take ML.HEADER_SIZE)).checksum ≠
          ML.compute_checksum ((data.drop ML.HEADER_SIZE).take L) then
        .error .checksumMismatch
      else .ok (ML.readHeader (data.take ML.HEADER_SIZE),
        (data.drop ML.HEADER_SIZE).take L)) := by
    unfold ML.parse_message
    rw [if_neg (Nat.not_lt.2 h20)]
  have hplen : ((data.drop ML.HEADER_SIZE).take L).length =
      min L (data.length - ML.HEADER_SIZE) := by
    simp [List.length_take, List.length_drop]
  rw [hunfold]
  by_cases hcase : data.length < ML.HEADER_SIZE + L
  · have hne : ((data.drop ML.HEADER_SIZE).take L).length ≠ L := by
      rw [hplen]
      omega
    rw [if_pos hne]
    exact ⟨fun hle _ => absurd hle (by omega),
      ⟨fun _ => hcase, fun _ => rfl⟩⟩
  · have heq : ((data.drop ML.HEADER_SIZE).take L).length = L := by
      rw [hplen]
      omega
    rw [if_neg (by rw [heq]; simp)]
    by_cases hck : (ML.readHeader (data.take ML.HEADER_SIZE)).checksum =
        ML.compute_checksum ((data.drop ML.HEADER_SIZE).take L)
    · rw [if_neg (by simp [hck])]
      exact ⟨fun _ _ => rfl, by simp [hcase]⟩
    · rw [if_pos (by simp [hck])]
      exact ⟨fun _ hck2 => absurd hck2 hck, by simp [hcase]⟩

/-- Claim C10 witness: the theorem applied to a valid READY datagram with
three trailing junk bytes; parsing succeeds and discards the junk. -/
theorem claim_C10_witness :
    ML.HEADER_SIZE ≤ exD0.length ∧
    ML.parse_message exD0 =
      .ok (ML.readHeader (exD0.take ML.HEADER_SIZE),
        (exD0.drop ML.HEADER_SIZE).take
          (ML.readHeader (exD0.take ML.HEADER_SIZE)).payload_len) :=
  ⟨by decide,
    (claim_C10_prefix_validation exD0 (by decide)).1 (by decide) (by decide)⟩
